import Mathlib

/-!
Shallow embedding of `scrapegraphai/nodes/parse_node.py` (`ParseNode.execute`).

The embedding follows the Python source line by line.  Dynamically typed
operations that the source performs are modelled by small helper functions
returning `Except PyErr _`, so that a Python exception becomes an explicit
error value.  External collaborators (the OpenAI and Mistral token counters,
the HTML-to-text transformer, and the third-party `semchunk.chunk` splitter)
are not part of this repository; they are taken as function parameters of
`execute`, matching the specification, which treats them as opaque black-box
functions.

Python float literals are modelled as exact rationals (`ℚ`).  This is
harmless here: the only live use of a float in the source is the expression
`self.llm_model.name.split("/")[-1] * 0.9`, which multiplies a `str` by a
`float` and therefore raises `TypeError` in Python regardless of the
operand values, before any float arithmetic is performed.
-/

namespace Scrapegraph

/-- Python exception classes that `ParseNode.execute` can raise, plus the
`ConfigurationError` class named by the specification (which the source never
defines nor raises). -/
inductive PyErr where
  | keyError (key : String)
  | indexError
  | typeError
  | attributeError
  | unboundLocalError
  | configurationError
deriving DecidableEq, Repr

/-- The `langchain_core.documents.Document` class: only its `page_content`
string matters to `ParseNode`. -/
structure Document where
  page_content : String
deriving DecidableEq, Repr

/-- A Python value that can appear in the state dict or as a document list
element: a raw string, a `Document`, or a list of values. -/
inductive PyVal where
  | vstr (s : String)
  | vdoc (d : Document)
  | vlist (xs : List PyVal)

/-- The runtime class of the configured `llm_model`, as tested by the
`isinstance` chain in `execute`: `ChatOpenAI`, `ChatMistralAI`, `ChatOllama`,
or any other class (the final `else` branch). -/
inductive BackendKind where
  | openai
  | mistral
  | ollama
  | generic
deriving DecidableEq, Repr

/-- The configured model client, reduced to what `execute` reads from it:
its runtime class and its `name` attribute (`Optional[str]` in the client
classes, hence `Option String`). -/
structure LLMModel where
  kind : BackendKind
  name : Option String
deriving DecidableEq, Repr

/-- The `ParseNode` instance fields that `execute` reads.  `input_keys`
stands for the result of `self.get_input_keys(state)` (computed by the
`BaseNode` superclass from the configured input expression); `chunk_size`
models `node_config.get("chunk_size", 4096)`; `llm_model` models
`node_config.get("llm_model")`, which is `None` when the option is absent. -/
structure ParseNode where
  input_keys : List String
  output : List String
  parse_html : Bool
  chunk_size : Option Int
  llm_model : Option LLMModel

/-- The graph state: a Python dict from string keys to values, modelled as an
insertion-ordered association list. -/
abbrev PyState := List (String × PyVal)

/-- Python dict lookup `state[key]`: the value, or `KeyError` when absent. -/
def lookupState (state : PyState) (key : String) : Except PyErr PyVal :=
  match state.find? (fun kv => kv.1 == key) with
  | some kv => Except.ok kv.2
  | none => Except.error (PyErr.keyError key)

/-- Python dict mutation `state.update({key: v})`: overwrite the value of an
existing key in place, otherwise append the new binding. -/
def dictUpdate (state : PyState) (key : String) (v : PyVal) : PyState :=
  if state.any (fun kv => kv.1 == key) then
    state.map (fun kv => if kv.1 == key then (key, v) else kv)
  else
    state ++ [(key, v)]

/-- Python subscript `xs[0]` on a Lean-level list: the first element, or
`IndexError` on an empty list. -/
def listGet0 {α : Type} : List α → Except PyErr α
  | [] => Except.error PyErr.indexError
  | x :: _ => Except.ok x

/-- Python subscript `x[0]` on a dynamically typed value: first element of a
list (`IndexError` when empty), first character of a string as a
one-character string (`IndexError` when empty), and `TypeError` on a
`Document`, which is not subscriptable. -/
def pyIndex0 : PyVal → Except PyErr PyVal
  | PyVal.vlist [] => Except.error PyErr.indexError
  | PyVal.vlist (x :: _) => Except.ok x
  | PyVal.vstr s =>
    match s.data with
    | [] => Except.error PyErr.indexError
    | c :: _ => Except.ok (PyVal.vstr (String.mk [c]))
  | PyVal.vdoc _ => Except.error PyErr.typeError

/-- Python attribute access `x.page_content`: defined on a `Document`, an
`AttributeError` on a string or a list. -/
def pageContentOf : PyVal → Except PyErr String
  | PyVal.vdoc d => Except.ok d.page_content
  | PyVal.vstr _ => Except.error PyErr.attributeError
  | PyVal.vlist _ => Except.error PyErr.attributeError

/-- Helper for `pySplit`: structural recursion over the character list,
accumulating the current segment in reverse. -/
def pySplitAux (sep : Char) : List Char → List Char → List String
  | [], acc => [String.mk acc.reverse]
  | c :: cs, acc =>
    if c = sep then String.mk acc.reverse :: pySplitAux sep cs []
    else pySplitAux sep cs (c :: acc)

/-- Python `s.split(sep)` for a one-character separator, as used at
`name.split("/")`: always returns at least one segment; the empty string
splits to `[""]`, and separators at the ends produce empty segments, exactly
as in Python. -/
def pySplit (s : String) (sep : Char) : List String :=
  pySplitAux sep s.data []

/-- Python `seq[-1]` on the result of `split`, which is never empty; the
default is therefore never used. -/
def lastSegment (segs : List String) : String :=
  segs.getLastD ""

/-- Python `s * x` where `s` is a `str` and `x` is a `float`: sequence
repetition requires an `int` count, so multiplying a string by the float
literal `0.9` raises `TypeError` whatever the operand values are.  The
result type is the `float` the surrounding code expects; no value of it is
ever produced. -/
def strTimesFloat (s : String) (x : ℚ) : Except PyErr ℚ :=
  Except.error PyErr.typeError

/-- Python attribute access `self.llm_model.name` when `llm_model` may be
`None` (absent from `node_config`): `AttributeError` in that case. -/
def getModel : Option LLMModel → Except PyErr LLMModel
  | none => Except.error PyErr.attributeError
  | some m => Except.ok m

/-- Python method access `name.split` when `name` may be `None`:
`AttributeError` in that case. -/
def nameOf (m : LLMModel) : Except PyErr String :=
  match m.name with
  | none => Except.error PyErr.attributeError
  | some s => Except.ok s

/-- Line 79 of the source, `self.llm_model.name.split("/")[-1] * 0.9`:
resolve `llm_model` and its `name`, split on `/`, take the last segment, and
multiply that string by the float `0.9`. -/
def contextWindowExpr (mo : Option LLMModel) : Except PyErr ℚ := do
  let m ← getModel mo
  let nm ← nameOf m
  strTimesFloat (lastSegment (pySplit nm '/')) ((9 : ℚ) / 10)

/-- Recomputation of `self.llm_model.name.split("/")[-1]` in the Mistral
branch (`model_name`). -/
def lastNameSegment (mo : Option LLMModel) : Except PyErr String := do
  let m ← getModel mo
  let nm ← nameOf m
  pure (lastSegment (pySplit nm '/'))

/-- The `isinstance` dispatch: `isinstance(None, C)` is false for every
class, so a missing `llm_model` would reach the final `else` branch. -/
def kindOf : Option LLMModel → BackendKind
  | none => BackendKind.generic
  | some m => m.kind

/-- Python `num_tokens // context_window` with an `int` left operand and a
`float` right operand: the floor of the true quotient, as a `float`. -/
def pyFloorDivIF (n : Int) (q : ℚ) : ℚ :=
  ((⌊(n : ℚ) / q⌋ : Int) : ℚ)

/-- Python `num_tokens % context_window` with an `int` left operand and a
`float` right operand: `n - q * floor(n / q)`. -/
def pyModIF (n : Int) (q : ℚ) : ℚ :=
  (n : ℚ) - q * ((⌊(n : ℚ) / q⌋ : Int) : ℚ)

/-- Python `range(x)` where `x` is a `float`: raises `TypeError`, since
`range` requires an integer argument.  In this source `num_chunks` always is
a `float`, being produced by `int // float` (possibly plus 1). -/
def pyRangeFloat (x : ℚ) : Except PyErr (List Int) :=
  Except.error PyErr.typeError

/-- Python string slicing `s[a:b]` with `float` bounds: raises `TypeError`
(slice indices must be integers or None).  In this source both bounds are
floats, being `int * float` products. -/
def pySliceFF (s : String) (a b : ℚ) : Except PyErr String :=
  Except.error PyErr.typeError

/-- Python `int(x)` on a `float`: truncation toward zero. -/
def pyInt (q : ℚ) : Int :=
  if 0 ≤ q then ⌊q⌋ else ⌈q⌉

/-- The common chunk loop of the OpenAI and Mistral branches:

    num_chunks = num_tokens // context_window
    if num_tokens % context_window != 0: num_chunks += 1
    for i in range(num_chunks):
        chunks.append(page[i * context_window : (i + 1) * context_window])
-/
def sliceLoop (num_tokens : Int) (context_window : ℚ) (page : String) :
    Except PyErr (List String) := do
  let num_chunks := pyFloorDivIF num_tokens context_window
  let num_chunks :=
    if pyModIF num_tokens context_window ≠ 0 then num_chunks + 1 else num_chunks
  let idxs ← pyRangeFloat num_chunks
  idxs.foldlM
    (fun chunks i => do
      let piece ← pySliceFF page ((i : ℚ) * context_window) (((i : ℚ) + 1) * context_window)
      pure (chunks ++ [piece]))
    ([] : List String)

/-- Embedding of `ParseNode.execute`.

Parameters, in order: the external token counters `num_tokens_openai` and
`num_tokens_mistral` (black-box pure functions per the specification), the
`Html2TextTransformer().transform_documents(...)` call as an opaque
function, and the third-party `semchunk.chunk` splitter (applied to the text
and the computed word budget).

The body mirrors the source:
  1. fetch the input values from the state (`KeyError` when a key is absent);
  2. take `input_data[0]`, then either transform it (when `parse_html`) and
     take element `[0]`, or take element `[0]` directly;
  3. evaluate `context_window = self.llm_model.name.split("/")[-1] * 0.9`;
  4. dispatch on the runtime class of `llm_model`; the Ollama branch only
     prints and leaves the local `chunks` unassigned, which the embedding
     records as `none`;
  5. `state.update({self.output[0]: chunks}); return state` — evaluating the
     key first, then the local `chunks`, which raises `UnboundLocalError` on
     the Ollama path. -/
def execute (num_tokens_openai : String → Int)
    (num_tokens_mistral : String → String → Int)
    (transform_documents : PyVal → PyVal)
    (semchunk_chunk : String → Int → List String)
    (node : ParseNode) (state : PyState) : Except PyErr PyState := do
  let input_data ← node.input_keys.mapM (lookupState state)
  let dt0 ← listGet0 input_data
  let docs_transformed ←
    if node.parse_html then pyIndex0 (transform_documents dt0)
    else pyIndex0 dt0
  let context_window ← contextWindowExpr node.llm_model
  let chunksLocal : Option (List String) ←
    match kindOf node.llm_model with
    | BackendKind.openai => do
      let page ← pageContentOf docs_transformed
      let cs ← sliceLoop (num_tokens_openai page) context_window page
      pure (some cs)
    | BackendKind.mistral => do
      let model_name ← lastNameSegment node.llm_model
      let page ← pageContentOf docs_transformed
      let cs ← sliceLoop (num_tokens_mistral page model_name) context_window page
      pure (some cs)
    | BackendKind.ollama =>
      -- print("Ollama model processing not yet implemented."); the local
      -- variable `chunks` is never assigned on this path
      pure none
    | BackendKind.generic => do
      let chunk_size := node.chunk_size.getD 4096
      let chunk_size := min (chunk_size - 500) (pyInt ((chunk_size : ℚ) * ((9 : ℚ) / 10)))
      match docs_transformed with
      | PyVal.vdoc d => pure (some (semchunk_chunk d.page_content chunk_size))
      | PyVal.vstr s => pure (some (semchunk_chunk s chunk_size))
      | PyVal.vlist _ => Except.error PyErr.typeError
  let outKey ← listGet0 node.output
  let chunks ←
    match chunksLocal with
    | none => Except.error PyErr.unboundLocalError
    | some cs => pure cs
  pure (dictUpdate state outKey (PyVal.vlist (chunks.map PyVal.vstr)))

/-! Concrete scenario builders used by the claim statements: a node whose
input expression resolves to the single key `"doc"`, whose first output key
is `"parsed_doc"`, with `parse_html` disabled (the claims quantify over the
already-normalized document text, as the specification does), and a state
binding `"doc"` to a one-element document list. -/

/-- A `ParseNode` with the given configured `llm_model` object. -/
def mkNodeM (mo : Option LLMModel) : ParseNode :=
  { input_keys := ["doc"]
    output := ["parsed_doc"]
    parse_html := false
    chunk_size := none
    llm_model := mo }

/-- A `ParseNode` whose `llm_model` has the given class and `name`. -/
def mkNode (k : BackendKind) (nm : Option String) : ParseNode :=
  mkNodeM (some { kind := k, name := nm })

/-- A state holding a single loaded document with the given text. -/
def mkState (text : String) : PyState :=
  [("doc", PyVal.vlist [PyVal.vdoc { page_content := text }])]

/-- The error that the context-window expression of line 79 produces for a
given `llm_model` value: `AttributeError` when the model or its name is
missing, otherwise the `TypeError` from multiplying a `str` by a `float`. -/
def cwErr : Option LLMModel → PyErr
  | none => PyErr.attributeError
  | some m =>
    match m.name with
    | none => PyErr.attributeError
    | some _ => PyErr.typeError

/-- The claim language of C5: a backend name is malformed when it is missing
or its trailing `/`-segment is not a (decimal) number. -/
def isNumericStr (s : String) : Bool :=
  !s.data.isEmpty && s.data.all (fun c => c.isDigit)

/-- Malformed backend name, as claim C5 describes it: missing, or with a
non-numeric trailing segment. -/
def malformedName (nm : Option String) : Prop :=
  nm = none ∨ ∃ s, nm = some s ∧ isNumericStr (lastSegment (pySplit s '/')) = false

/-- Concrete stub for the OpenAI token counter, used in closed statements. -/
def tokOStub : String → Int := fun _ => 0

/-- Concrete stub for the Mistral token counter, used in closed statements. -/
def tokMStub : String → String → Int := fun _ _ => 0

/-- Concrete stub for the HTML transformer, used in closed statements. -/
def trStub : PyVal → PyVal := fun v => v

/-- Concrete stub for the semchunk splitter, used in closed statements. -/
def scStub : String → Int → List String := fun _ _ => []

/-! Helper lemmas shared by the claim theorems. -/

lemma contextWindowExpr_error (mo : Option LLMModel) :
    contextWindowExpr mo = Except.error (cwErr mo) := by
  rcases mo with _ | ⟨k, nm⟩
  · rfl
  · rcases nm with _ | s <;> rfl

lemma execute_mkNodeM (tokO : String → Int) (tokM : String → String → Int)
    (tr : PyVal → PyVal) (sc : String → Int → List String)
    (mo : Option LLMModel) (text : String) :
    execute tokO tokM tr sc (mkNodeM mo) (mkState text) =
      Except.error (cwErr mo) := by
  rcases mo with _ | ⟨k, nm⟩
  · rfl
  · rcases nm with _ | s <;> rfl

lemma bind_isError {α β : Type} (x : Except PyErr α) (f : α → Except PyErr β)
    (h : ∀ a, ∃ e, f a = Except.error e) : ∃ e, (x >>= f) = Except.error e := by
  cases x with
  | error e => exact ⟨e, rfl⟩
  | ok a => exact h a

/-- Every call to `execute` produces an error: the input-fetching steps can
raise `KeyError` or `IndexError`, and any call that gets past them reaches
the context-window expression of line 79, which always raises. -/
lemma execute_isError (tokO : String → Int) (tokM : String → String → Int)
    (tr : PyVal → PyVal) (sc : String → Int → List String)
    (node : ParseNode) (state : PyState) :
    ∃ e, execute tokO tokM tr sc node state = Except.error e := by
  rcases node with ⟨ik, out, ph, cs, mo⟩
  cases ph <;>
  · unfold execute
    apply bind_isError
    intro input_data
    apply bind_isError
    intro dt0
    apply bind_isError
    intro docs_transformed
    refine ⟨cwErr mo, ?_⟩
    rw [contextWindowExpr_error]
    rfl

/-! Claim theorems. -/

/-- C1: the claim states that on the OPENAI and MISTRAL paths the returned
chunks concatenate to the original text.  The code instead raises `TypeError`
at `self.llm_model.name.split("/")[-1] * 0.9` (a `str` multiplied by a
`float`) for every document text and every token counter, so no chunk
sequence is ever returned on either path. -/
theorem claim_C1_openai_mistral_paths_raise (tokO : String → Int)
    (tokM : String → String → Int) (tr : PyVal → PyVal)
    (sc : String → Int → List String) (text : String) :
    execute tokO tokM tr sc (mkNode BackendKind.openai (some "gpt-3.5-turbo/4096"))
        (mkState text) = Except.error PyErr.typeError ∧
    execute tokO tokM tr sc (mkNode BackendKind.mistral (some "mistral/32000"))
        (mkState text) = Except.error PyErr.typeError :=
  ⟨execute_mkNodeM tokO tokM tr sc _ text, execute_mkNodeM tokO tokM tr sc _ text⟩

/-- C2: the claim states that for a backend name whose last `/`-segment is a
number, the per-chunk budget becomes that number times `0.9`.  The code never
converts the segment to a number: for every window size `w` the budget
expression, and hence `execute`, raises `TypeError` (string times float). -/
theorem claim_C2_numeric_window_budget_raises (w : ℕ) (k : BackendKind)
    (tokO : String → Int) (tokM : String → String → Int) (tr : PyVal → PyVal)
    (sc : String → Int → List String) (text : String) :
    contextWindowExpr (some { kind := k, name := some ("openai/" ++ toString w) }) =
        Except.error PyErr.typeError ∧
    execute tokO tokM tr sc (mkNode k (some ("openai/" ++ toString w)))
        (mkState text) = Except.error PyErr.typeError :=
  ⟨contextWindowExpr_error _, execute_mkNodeM tokO tokM tr sc _ text⟩

/-- C3: the claim states that with total token count `T` and window `W` the
OPENAI path returns `ceil(T / (W * 0.9))` chunks.  For every reported count
`T` (the counter is the constant function) the code raises `TypeError` at
the context-window expression and returns no chunks at all. -/
theorem claim_C3_chunk_count_never_computed (T : Int)
    (tokM : String → String → Int) (tr : PyVal → PyVal)
    (sc : String → Int → List String) (text : String) :
    execute (fun _ => T) tokM tr sc (mkNode BackendKind.openai (some "openai/100"))
        (mkState text) = Except.error PyErr.typeError :=
  execute_mkNodeM (fun _ => T) tokM tr sc _ text

/-- C4: the claim states that an OLLAMA backend completes normally with an
empty chunk sequence.  The code raises `TypeError` at the context-window
expression, before the OLLAMA branch is even reached, for every input
text. -/
theorem claim_C4_ollama_raises (tokO : String → Int)
    (tokM : String → String → Int) (tr : PyVal → PyVal)
    (sc : String → Int → List String) (text : String) :
    execute tokO tokM tr sc (mkNode BackendKind.ollama (some "ollama/llama3"))
        (mkState text) = Except.error PyErr.typeError :=
  execute_mkNodeM tokO tokM tr sc _ text

/-- C5 counterexample: for the malformed backend name `"gpt4"` (no `/`
separator, non-numeric), `execute` raises `TypeError`, not the
`ConfigurationError` the claim names — the source defines no such class. -/
theorem claim_C5_counterexample :
    execute tokOStub tokMStub trStub scStub
        (mkNode BackendKind.openai (some "gpt4")) (mkState "hello world") =
      Except.error PyErr.typeError ∧
    (PyErr.typeError == PyErr.configurationError) = false :=
  ⟨rfl, rfl⟩

/-- C5 amended: for every backend whose name is missing or malformed,
`execute` raises an error before any chunking is attempted — an
`AttributeError` when the name is missing, a `TypeError` otherwise — rather
than a `ConfigurationError`.  The error value does not depend on the token
counters or the splitter, so no chunking work influences the outcome. -/
theorem claim_C5_malformed_name_raises (tokO : String → Int)
    (tokM : String → String → Int) (tr : PyVal → PyVal)
    (sc : String → Int → List String) (k : BackendKind) (nm : Option String)
    (text : String) (h : malformedName nm) :
    execute tokO tokM tr sc (mkNode k nm) (mkState text) =
      Except.error (cwErr (some { kind := k, name := nm })) :=
  execute_mkNodeM tokO tokM tr sc _ text

/-- C5 witness: the name `"gpt4"` is malformed and the amended theorem
applies to it, yielding the `TypeError`. -/
theorem claim_C5_malformed_name_raises_witness :
    malformedName (some "gpt4") ∧
    execute tokOStub tokMStub trStub scStub
        (mkNode BackendKind.generic (some "gpt4")) (mkState "x") =
      Except.error (cwErr (some { kind := BackendKind.generic, name := some "gpt4" })) :=
  ⟨Or.inr ⟨"gpt4", rfl, by decide⟩,
   claim_C5_malformed_name_raises tokOStub tokMStub trStub scStub
     BackendKind.generic (some "gpt4") "x" (Or.inr ⟨"gpt4", rfl, by decide⟩)⟩

/-- C6: the claim states that every returned chunk is non-empty and that
empty trailing slices are dropped.  For every backend kind the code raises
`TypeError` at the context-window expression and returns no chunk sequence
whatsoever (and the slice loop in the source appends every slice without any
emptiness filter). -/
theorem claim_C6_no_chunk_sequence (tokO : String → Int)
    (tokM : String → String → Int) (tr : PyVal → PyVal)
    (sc : String → Int → List String) (k : BackendKind) (text : String) :
    execute tokO tokM tr sc (mkNode k (some "model/100")) (mkState text) =
      Except.error PyErr.typeError :=
  execute_mkNodeM tokO tokM tr sc _ text

/-- C7: the claim states the GENERIC fallback bounds each chunk by
`min(C - 500, C * 0.9)` words.  For every configured `chunk_size` `C`, every
splitter function and every text, the code raises `TypeError` at the
context-window expression before the fallback branch can run. -/
theorem claim_C7_generic_fallback_unreachable (tokO : String → Int)
    (tokM : String → String → Int) (tr : PyVal → PyVal)
    (sc : String → Int → List String) (C : Int) (text : String) :
    execute tokO tokM tr sc
        { mkNode BackendKind.generic (some "fallback/model") with chunk_size := some C }
        (mkState text) = Except.error PyErr.typeError := rfl

/-- C8: the claim states that an empty document text yields an empty chunk
sequence with no error, for every backend kind.  The code raises `TypeError`
at the context-window expression on the empty text too. -/
theorem claim_C8_empty_text_raises (tokO : String → Int)
    (tokM : String → String → Int) (tr : PyVal → PyVal)
    (sc : String → Int → List String) (k : BackendKind) :
    execute tokO tokM tr sc (mkNode k (some "model/1000")) (mkState "") =
      Except.error PyErr.typeError :=
  execute_mkNodeM tokO tokM tr sc _ ""

/-- C9: the claim describes the state returned when `execute` completes
(input state with exactly the first output key rebound).  `execute` never
completes: for every node configuration and every state it returns an error,
so there is no returned state mapping at all. -/
theorem claim_C9_execute_never_completes (tokO : String → Int)
    (tokM : String → String → Int) (tr : PyVal → PyVal)
    (sc : String → Int → List String) (node : ParseNode) (state : PyState) :
    ∃ e, execute tokO tokM tr sc node state = Except.error e :=
  execute_isError tokO tokM tr sc node state

/-- C10: the context-window expression of line 79 is evaluated before the
`isinstance` dispatch, so whenever that derivation fails with some error,
`execute` fails with exactly that error for every backend kind — including
OLLAMA and the GENERIC fallback, whose branches never use a window size. -/
theorem claim_C10_window_derivation_gates_all_paths (tokO : String → Int)
    (tokM : String → String → Int) (tr : PyVal → PyVal)
    (sc : String → Int → List String) (mo : Option LLMModel) (text : String)
    (e : PyErr) (h : contextWindowExpr mo = Except.error e) :
    execute tokO tokM tr sc (mkNodeM mo) (mkState text) = Except.error e := by
  have h1 := (contextWindowExpr_error mo).symm.trans h
  injection h1 with hc
  rw [← hc]
  exact execute_mkNodeM tokO tokM tr sc mo text

/-- C10 witness: for an OLLAMA model named `"ollama/llama3"` the derivation
fails with `TypeError` and `execute` fails with the same error. -/
theorem claim_C10_window_derivation_gates_all_paths_witness :
    contextWindowExpr (some { kind := BackendKind.ollama, name := some "ollama/llama3" }) =
      Except.error PyErr.typeError ∧
    execute tokOStub tokMStub trStub scStub
        (mkNodeM (some { kind := BackendKind.ollama, name := some "ollama/llama3" }))
        (mkState "hi") = Except.error PyErr.typeError :=
  ⟨rfl,
   claim_C10_window_derivation_gates_all_paths tokOStub tokMStub trStub scStub
     (some { kind := BackendKind.ollama, name := some "ollama/llama3" }) "hi"
     PyErr.typeError rfl⟩

end Scrapegraph
